import Mathlib

/-!
Verification of the skreader protocol engine against its specification.

The status decoder is embedded from `src/tests/device_testing.py`
(`StubDevice.cmd_get_device_info`), which carries the full bit-field decode
logic.  The modules `skreader/device.py`, `skreader/const.py`,
`skreader/controller.py`, `skreader/conv.py` and `skreader/measurement.py` are
not present under `src/`; the corresponding definitions below are modelled from
the specification, as indicated in their doc comments.
-/

namespace Skreader

/-- Device status enumeration (`SKF_STATUS_DEVICE` in `skreader/const.py`,
variants as used by `src/tests/device_testing.py` and the tests). -/
inductive SKF_STATUS_DEVICE where
  | IDLE
  | IDLE_OUT_MEAS
  | BUSY_INITIALIZING
  | BUSY_DARK_CALIBRATION
  | BUSY_FLASH_STANDBY
  | BUSY_MEASURING
  | ERROR_HW
  deriving DecidableEq

/-- Remote-mode flag (`SKF_REMOTE`). -/
inductive SKF_REMOTE where
  | REMOTE_OFF
  | REMOTE_ON
  deriving DecidableEq

/-- Pressed-button enumeration (`SKF_STATUS_BUTTON`), variants as used by the
tests in `src/tests/test_device.py`. -/
inductive SKF_STATUS_BUTTON where
  | NONE
  | POWER
  | MEASURING
  | MEMORY
  | MENU
  | PANEL
  deriving DecidableEq

/-- Ring-position enumeration (`SKF_STATUS_RING`). -/
inductive SKF_STATUS_RING where
  | UNPOSITIONED
  | CAL
  | LOW
  | HIGH
  deriving DecidableEq

/-- Decoded device status (`DeviceInfo` dataclass of `skreader/device.py`). -/
structure DeviceInfo where
  status : SKF_STATUS_DEVICE
  remote : SKF_REMOTE
  button : SKF_STATUS_BUTTON
  ring : SKF_STATUS_RING
  deriving DecidableEq

/-- Modelled from the spec: `skreader/const.py` is not under `src/`, so the
numeric codes of the button enumeration are not in the sources.  §4.2 says the
low 5 bits of `key` map to the button enumeration and any unmapped code yields
NONE; the tests pin that `0xFF &&& 0x1F = 31` is unmapped.  The codes are chosen
as distinct flag values consistent with every test case
(`Python: SKF_STATUS_BUTTON(key & 0x1F)` with `ValueError` fallback). -/
def buttonOfCode (n : Nat) : Option SKF_STATUS_BUTTON :=
  match n with
  | 0 => some .NONE
  | 1 => some .POWER
  | 2 => some .MEASURING
  | 4 => some .MEMORY
  | 8 => some .MENU
  | 16 => some .PANEL
  | _ => none

/-- Ring code mapping: 0 → UNPOSITIONED, 1 → CAL, 2 → LOW, 3 → HIGH, everything
else unmapped (`Python: SKF_STATUS_RING((key & 0x60) >> 5)` with `ValueError`
fallback); values fixed by §4.2 and by `test_cmd_get_device_info_ring_values`. -/
def ringOfCode (n : Nat) : Option SKF_STATUS_RING :=
  match n with
  | 0 => some .UNPOSITIONED
  | 1 => some .CAL
  | 2 => some .LOW
  | 3 => some .HIGH
  | _ => none

/-- Status classification of `StubDevice.cmd_get_device_info`
(`src/tests/device_testing.py`, lines 91-104). -/
def statusOf (sta1 sta2 : Nat) : SKF_STATUS_DEVICE :=
  if sta1 &&& 0x10 ≠ 0 then .ERROR_HW
  else if sta1 &&& 1 ≠ 0 then
    if sta2 &&& 1 ≠ 0 then .BUSY_INITIALIZING
    else if sta2 &&& 4 ≠ 0 then .BUSY_DARK_CALIBRATION
    else if sta2 &&& 0x10 ≠ 0 then .BUSY_FLASH_STANDBY
    else if sta2 &&& 8 ≠ 0 then .BUSY_MEASURING
    else .IDLE
  else if sta1 &&& 8 ≠ 0 then .IDLE_OUT_MEAS
  else .IDLE

/-- Remote flag of `StubDevice.cmd_get_device_info`
(`src/tests/device_testing.py`, lines 106-109). -/
def remoteOf (sta1 : Nat) : SKF_REMOTE :=
  if sta1 &&& 2 = 0 then .REMOTE_OFF else .REMOTE_ON

/-- Button decode of `StubDevice.cmd_get_device_info`
(`src/tests/device_testing.py`, lines 111-114): enum lookup of the low 5 bits
of `key`, falling back to NONE. -/
def buttonOf (key : Nat) : SKF_STATUS_BUTTON :=
  (buttonOfCode (key &&& 0x1F)).getD .NONE

/-- Ring decode of `StubDevice.cmd_get_device_info`
(`src/tests/device_testing.py`, lines 116-119): enum lookup of bits 5-6 of
`key`, falling back to UNPOSITIONED. -/
def ringOf (key : Nat) : SKF_STATUS_RING :=
  (ringOfCode ((key &&& 0x60) >>> 5)).getD .UNPOSITIONED

/-- Embedding of `StubDevice.cmd_get_device_info` (`src/tests/device_testing.py`,
lines 81-126), given the raw `ST` response bytes: fails with
`CommandError("cmd_get_device_info")` unless the body after the 2-byte tag is
exactly 3 bytes, then decodes `sta1 = data[2]`, `sta2 = data[3]`,
`key = data[4]`. -/
def cmd_get_device_info (data : List Nat) : Except String DeviceInfo :=
  if (data.drop 2).length ≠ 3 then
    .error "cmd_get_device_info"
  else
    .ok { status := statusOf (data.getD 2 0) (data.getD 3 0)
          remote := remoteOf (data.getD 2 0)
          button := buttonOf (data.getD 4 0)
          ring := ringOf (data.getD 4 0) }

/-- Modelled from the spec: `skreader/conv.py` is not under `src/`.  Real
values are embedded as rationals; rounding to an integer is half-to-even
(Python's default float formatting rule), which matches every observed case in
§8, in particular `formatLux(9.25,...) = "9.2"`. -/
def roundHE (q : ℚ) : ℤ :=
  if q - ⌊q⌋ < 1/2 then ⌊q⌋
  else if (1 : ℚ)/2 < q - ⌊q⌋ then ⌊q⌋ + 1
  else if ⌊q⌋ % 2 = 0 then ⌊q⌋ else ⌊q⌋ + 1

/-- A string of `k` copies of the character `c` (used for zero padding). -/
def repChar (k : Nat) (c : Char) : String := String.mk (List.replicate k c)

/-- Decimal rendering of an integer. -/
def intStr (n : ℤ) : String :=
  if n < 0 then "-" ++ Nat.repr n.natAbs else Nat.repr n.natAbs

/-- Rendering of an already-scaled integer value with a decimal point placed
`d` digits from the right (`d = 0`: no decimal point). -/
def scaledStr (scaled : ℤ) (d : Nat) : String :=
  if d = 0 then intStr scaled
  else
    (if scaled < 0 then "-" else "") ++
      Nat.repr (scaled.natAbs / 10 ^ d) ++ "." ++
      repChar (d - (Nat.repr (scaled.natAbs % 10 ^ d)).length) '0' ++
      Nat.repr (scaled.natAbs % 10 ^ d)

/-- Modelled from the spec: §4.5 — render a value with exactly `d` fractional
digits, standard (half-to-even) rounding, as Python's `f"{v:.{d}f}"` does. -/
def fixedStr (q : ℚ) (d : Nat) : String :=
  scaledStr (roundHE (q * (10 : ℚ) ^ d)) d

/-- Modelled from the spec: `FloatToStr` of `skreader/conv.py` is not under
`src/`; §4.5 `formatFixed`: value below `lo` renders as "Under", above `hi` as
"Over", otherwise with exactly `d` fractional digits. -/
def FloatToStr (v lo hi : ℚ) (d : Nat) : String :=
  if v < lo then "Under"
  else if hi < v then "Over"
  else fixedStr v d

/-- Modelled from the spec: `LuxFloatToStr` of `skreader/conv.py` is not under
`src/`; §4.5 `formatLux` magnitude table — same Under/Over gating as
`FloatToStr`, then 1 fractional digit below 99.95, whole numbers below 999.5,
nearest 10 below 9995, nearest 100 below 99950, nearest 1000 above. -/
def LuxFloatToStr (v lo hi : ℚ) : String :=
  if v < lo then "Under"
  else if hi < v then "Over"
  else if v < 995 / 100 then fixedStr v 1
  else if v < 9995 / 100 then fixedStr v 1
  else if v < 9995 / 10 then fixedStr v 0
  else if v < 9995 then intStr (10 * roundHE (v / 10))
  else if v < 99950 then intStr (100 * roundHE (v / 100))
  else intStr (1000 * roundHE (v / 1000))

/-- Modelled from the spec: §3 — a decoded measurement field is a tagged value,
either a finite numeric reading or one of the two out-of-range sentinels. -/
inductive Measured where
  | under
  | over
  | value (q : ℚ)
  deriving DecidableEq

/-- Rendering of a `Measured` as the instrument library's strings: the
sentinels render as "Under"/"Over", a finite value with `d` fractional
digits. -/
def Measured.render (m : Measured) (d : Nat) : String :=
  match m with
  | .under => "Under"
  | .over => "Over"
  | .value q => fixedStr q d

/-- Modelled from the spec: `skreader/measurement.py` is not under `src/`.
§4.4 derived field — CIE1931.z is never read from the wire: if x is a sentinel,
z is x's sentinel; else if y is a sentinel, z is y's sentinel; else
z = 1.0 − x − y (rendered with the same 4-decimal rule as x and y). -/
def cie1931_z (x y : Measured) : Measured :=
  match x with
  | .under => .under
  | .over => .over
  | .value qx =>
    match y with
    | .under => .under
    | .over => .over
    | .value qy => .value (1 - qx - qy)

/-- The CIE1931 chromaticity record as stored by the library: x and y decoded
from the wire, z derived, all rendered with 4 decimals. -/
structure CIE1931Value where
  x : String
  y : String
  z : String
  deriving DecidableEq

/-- Modelled from the spec: construction of the CIE1931 record from the two
decoded fields; z comes from `cie1931_z`, never from the wire. -/
def mkCIE1931 (x y : Measured) : CIE1931Value :=
  { x := x.render 4, y := y.render 4, z := (cie1931_z x y).render 4 }

/-- Big-endian 32-bit word made of the 4 bytes at offset `pos` (absent bytes
read as 0). -/
def readWord (data : List Nat) (pos : Nat) : Nat :=
  data.getD pos 0 * 0x1000000 + data.getD (pos + 1) 0 * 0x10000 +
    data.getD (pos + 2) 0 * 0x100 + data.getD (pos + 3) 0

/-- Modelled from the spec: the instrument's fixed measurement-record length
(`skreader/measurement.py` and `skreader/testdata.py` are not under `src/`;
§9 notes the exact total length must come from the instrument's documented
layout).  The claims proved below do not depend on its particular value. -/
def MEAS_DATA_SIZE : Nat := 2380

/-- Modelled from the spec: byte offset of the 1nm spectral run (fixed
representative constant, see `MEAS_DATA_SIZE`). -/
def SPD1_OFF : Nat := 100

/-- Modelled from the spec: byte offset of the 5nm spectral run (fixed
representative constant, see `MEAS_DATA_SIZE`). -/
def SPD5_OFF : Nat := 1704

/-- Decoded measurement record; the spectral entries are kept as the raw
big-endian words read at each fixed-stride offset (their IEEE-754 numeric
interpretation and range gating happen per entry and do not affect the
structural claims proved here). -/
structure MeasurementResult where
  SpectralData_1nm : List Nat
  SpectralData_5nm : List Nat
  deriving DecidableEq

/-- Modelled from the spec: `MeasurementResult.__init__` of
`skreader/measurement.py` is not under `src/`.  §4.4 contract — fail with the
size-validation error "Invalid measurement data size" unless the payload's
total length equals the fixed record length, then decode the two spectral runs
as fixed-stride 4-byte fields: 401 entries at 1 nm, 81 entries at 5 nm. -/
def decodeMeasurement (data : List Nat) : Except String MeasurementResult :=
  if data.length ≠ MEAS_DATA_SIZE then
    .error "Invalid measurement data size"
  else
    .ok { SpectralData_1nm :=
            (List.range 401).map (fun i => readWord data (SPD1_OFF + 4 * i))
          SpectralData_5nm :=
            (List.range 81).map (fun i => readWord data (SPD5_OFF + 4 * i)) }

/-- Outcome of one raw transport operation (§6): success, a transport timeout,
or any other transport error carrying an errno rendering and a message. -/
inductive TransportResult (α : Type) where
  | ok (a : α)
  | timeout
  | err (code msg : String)

/-- Modelled from the spec: `Device.run_cmd_or_error` of `skreader/device.py`
is not under `src/` (only its tests are).  §4.1 steps 2-4: write the mnemonic,
read a 2-byte acknowledgement, read the payload.  A transport timeout on any
step yields `CommandError("<context> (timed out)")`; any other transport error
yields `CommandError("<context> ([Errno <code>] <message>)")`; an
acknowledgement other than exactly the byte pair 0x06 0x30 (including a short
read) yields `CommandError(context)` with no further detail.  The three
transport outcomes are passed in explicitly. -/
def run_cmd_or_error (ctx : String) (wr : TransportResult Unit)
    (ackRead dataRead : TransportResult (List Nat)) : Except String (List Nat) :=
  match wr with
  | .timeout => .error (ctx ++ " (timed out)")
  | .err code msg => .error (ctx ++ " ([Errno " ++ code ++ "] " ++ msg ++ ")")
  | .ok _ =>
    match ackRead with
    | .timeout => .error (ctx ++ " (timed out)")
    | .err code msg => .error (ctx ++ " ([Errno " ++ code ++ "] " ++ msg ++ ")")
    | .ok ack =>
      if ack ≠ [0x06, 0x30] then .error ctx
      else
        match dataRead with
        | .timeout => .error (ctx ++ " (timed out)")
        | .err code msg => .error (ctx ++ " ([Errno " ++ code ++ "] " ++ msg ++ ")")
        | .ok payload => .ok payload

/-- Whether a device status is one of the BUSY_* states. -/
def SKF_STATUS_DEVICE.isBusy (s : SKF_STATUS_DEVICE) : Bool :=
  match s with
  | .BUSY_INITIALIZING => true
  | .BUSY_DARK_CALIBRATION => true
  | .BUSY_FLASH_STANDBY => true
  | .BUSY_MEASURING => true
  | _ => false

/-- Result of a polling loop together with its observable side effects:
how many best-effort remote-off cleanup calls were made and how many status
fetches were issued. -/
structure WaitOutcome where
  result : Except String Unit
  cleanups : Nat
  fetches : Nat

/-- Modelled from the spec: `Sekonic.wait_until_ready` of
`skreader/controller.py` is not under `src/` (only its tests are).  §4.3 — the
loop is step-indexed: `fetch n` is the outcome of the n-th status fetch
(`Except.error` models a CommandError), `fuel` the remaining number of steps in
the wall-clock budget, `i` the number of fetches already made.  A fetch error
propagates as "Error getting device info: <message>" (no retry, no cleanup);
button == MEASURING fails "Measuring button is pressed" (cleanup then raise);
ring ≠ LOW fails "Ring is not set to LOW position" (cleanup then raise); a
BUSY_* status sleeps one step and retries; otherwise the loop returns with no
cleanup.  An exhausted budget fails "Max connect time exceeded" (cleanup then
raise). -/
def wait_until_ready (fetch : Nat → Except String DeviceInfo) :
    Nat → Nat → WaitOutcome
  | 0, i => { result := .error "Max connect time exceeded", cleanups := 1, fetches := i }
  | fuel + 1, i =>
    match fetch i with
    | .error e =>
        { result := .error ("Error getting device info: " ++ e), cleanups := 0,
          fetches := i + 1 }
    | .ok info =>
      if info.button = .MEASURING then
        { result := .error "Measuring button is pressed", cleanups := 1, fetches := i + 1 }
      else if info.ring ≠ .LOW then
        { result := .error "Ring is not set to LOW position", cleanups := 1,
          fetches := i + 1 }
      else if info.status.isBusy then
        wait_until_ready fetch fuel (i + 1)
      else
        { result := .ok (), cleanups := 0, fetches := i + 1 }

/-- Modelled from the spec: `Sekonic.wait_measurement_result` of
`skreader/controller.py` is not under `src/` (only its tests are).  §4.3 — same
step-indexed shape as `wait_until_ready` but with its own budget: a
CommandError on the status fetch is swallowed and the loop retries after a
sleep; the loop terminates successfully on the first poll whose status is not
BUSY_MEASURING; an exhausted budget fails "Max wait time exceeded" (cleanup
then raise). -/
def wait_measurement_result (fetch : Nat → Except String SKF_STATUS_DEVICE) :
    Nat → Nat → WaitOutcome
  | 0, i => { result := .error "Max wait time exceeded", cleanups := 1, fetches := i }
  | fuel + 1, i =>
    match fetch i with
    | .error _ => wait_measurement_result fetch fuel (i + 1)
    | .ok s =>
      if s = .BUSY_MEASURING then wait_measurement_result fetch fuel (i + 1)
      else { result := .ok (), cleanups := 0, fetches := i + 1 }

/-- The device commands issued by `Sekonic.measure` (§4.6), in the order the
controller can issue them. -/
inductive DevOp where
  | remoteOn
  | config
  | startMeasuring
  | poll
  | fetchResult
  | remoteOff
  deriving DecidableEq

/-- Result of `measure` together with the exact sequence of device commands it
issued. -/
structure MeasureOutcome where
  result : Except String MeasurementResult
  trace : List DevOp

/-- Modelled from the spec: `Sekonic.measure` of `skreader/controller.py` is
not under `src/` (only its tests are).  §4.6, useFakeData = false on a
connected session: issue remote-on, configuration push, start-measuring,
poll-to-completion and result fetch in that order, then a trailing remote-off.
A failure during remote-on or config is reported as
"Error setting up device: <detail>"; a failure during start/poll/fetch as
"Error getting measurement: <detail>"; a failure of the trailing remote-off is
swallowed and the already-obtained result is returned.  `beh` gives each
command's outcome and `fetched` the decoded result of the fetch. -/
def measure (beh : DevOp → Except String Unit)
    (fetched : Except String MeasurementResult) : MeasureOutcome :=
  match beh .remoteOn with
  | .error e =>
      { result := .error ("Error setting up device: " ++ e), trace := [.remoteOn] }
  | .ok _ =>
    match beh .config with
    | .error e =>
        { result := .error ("Error setting up device: " ++ e),
          trace := [.remoteOn, .config] }
    | .ok _ =>
      match beh .startMeasuring with
      | .error e =>
          { result := .error ("Error getting measurement: " ++ e),
            trace := [.remoteOn, .config, .startMeasuring] }
      | .ok _ =>
        match beh .poll with
        | .error e =>
            { result := .error ("Error getting measurement: " ++ e),
              trace := [.remoteOn, .config, .startMeasuring, .poll] }
        | .ok _ =>
          match fetched with
          | .error e =>
              { result := .error ("Error getting measurement: " ++ e),
                trace := [.remoteOn, .config, .startMeasuring, .poll, .fetchResult] }
          | .ok r =>
            match beh .remoteOff with
            | .error _ =>
                { result := .ok r,
                  trace := [.remoteOn, .config, .startMeasuring, .poll,
                    .fetchResult, .remoteOff] }
            | .ok _ =>
                { result := .ok r,
                  trace := [.remoteOn, .config, .startMeasuring, .poll,
                    .fetchResult, .remoteOff] }

/-- The §4.2 status rule exactly as the specification words it, written
independently of the decoder embedding: ERROR_HW if bit 0x10 of sta1 is set
(checked first); else, if bit 0x01 of sta1 is set, the first match in order
over sta2 bits 0x01, 0x04, 0x10, 0x08, else IDLE; else IDLE_OUT_MEAS if bit
0x08 of sta1 is set; else IDLE. -/
def statusSpec (sta1 sta2 : Nat) : SKF_STATUS_DEVICE :=
  if sta1 &&& 0x10 ≠ 0 then .ERROR_HW
  else if sta1 &&& 0x01 ≠ 0 then
    if sta2 &&& 0x01 ≠ 0 then .BUSY_INITIALIZING
    else if sta2 &&& 0x04 ≠ 0 then .BUSY_DARK_CALIBRATION
    else if sta2 &&& 0x10 ≠ 0 then .BUSY_FLASH_STANDBY
    else if sta2 &&& 0x08 ≠ 0 then .BUSY_MEASURING
    else .IDLE
  else if sta1 &&& 0x08 ≠ 0 then .IDLE_OUT_MEAS
  else .IDLE

/-- Claim C1: for every 3-byte status body (sta1, sta2, key) the decoder
succeeds, the decoded status equals the §4.2 precedence rule (`statusSpec`)
exactly, and the remote flag is ON if and only if `sta1 &&& 0x02` is
non-zero. -/
theorem c1_status_remote_decode (sta1 sta2 key : Nat)
    (h1 : sta1 < 256) (h2 : sta2 < 256) (h3 : key < 256) :
    ∃ info, cmd_get_device_info [83, 84, sta1, sta2, key] = .ok info ∧
      info.status = statusSpec sta1 sta2 ∧
      (info.remote = .REMOTE_ON ↔ sta1 &&& 0x02 ≠ 0) := by
  refine ⟨_, rfl, rfl, ?_⟩
  show remoteOf sta1 = .REMOTE_ON ↔ sta1 &&& 0x02 ≠ 0
  unfold remoteOf
  by_cases h : sta1 &&& 2 = 0 <;> simp [h]

/-- Witness for C1 at the concrete body (3, 1, 72) exercised by
`test_cmd_get_device_info_comprehensive` (BUSY_INITIALIZING, REMOTE_ON). -/
theorem c1_status_remote_decode_witness :
    ∃ info, cmd_get_device_info [83, 84, 3, 1, 72] = .ok info ∧
      info.status = statusSpec 3 1 ∧
      (info.remote = .REMOTE_ON ↔ 3 &&& 0x02 ≠ 0) :=
  c1_status_remote_decode 3 1 72 (by decide) (by decide) (by decide)

/-- Claim C9: the decoder is total on every 3-byte status body — it always
returns `.ok`; a key whose low 5 bits match no button variant yields button
NONE; and the masked ring value `(key &&& 0x60) >>> 5` is always at most 3, so
the defensive UNPOSITIONED fallback arm of `ringOfCode` is unreachable. -/
theorem c9_decode_total (sta1 sta2 key : Nat) :
    (∃ info, cmd_get_device_info [83, 84, sta1, sta2, key] = .ok info ∧
      (buttonOfCode (key &&& 0x1F) = none → info.button = .NONE)) ∧
    (key &&& 0x60) >>> 5 ≤ 3 ∧
    (ringOfCode ((key &&& 0x60) >>> 5)).isSome = true := by
  have hle : key &&& 0x60 ≤ 0x60 := Nat.and_le_right
  have hv : (key &&& 0x60) >>> 5 ≤ 3 := by
    rw [Nat.shiftRight_eq_div_pow]
    omega
  refine ⟨⟨_, rfl, ?_⟩, hv, ?_⟩
  · intro h
    show buttonOf key = .NONE
    unfold buttonOf
    rw [h]
    rfl
  · generalize (key &&& 0x60) >>> 5 = v at hv
    interval_cases v <;> rfl

/-- Witness for C9 at the body (0, 0, 255): key 0xFF has unmapped button bits
and ring bits 3. -/
theorem c9_decode_total_witness :
    ((∃ info, cmd_get_device_info [83, 84, 0, 0, 255] = .ok info ∧
      (buttonOfCode (255 &&& 0x1F) = none → info.button = .NONE)) ∧
    (255 &&& 0x60) >>> 5 ≤ 3 ∧
    (ringOfCode ((255 &&& 0x60) >>> 5)).isSome = true) ∧
    buttonOfCode (255 &&& 0x1F) = none :=
  ⟨c9_decode_total 0 0 255, by decide⟩

/-- Claim C10: button and ring are decoded independently from the same key
byte — the decoded ring is always the mapping of `(key &&& 0x60) >>> 5`, even
when the low-5-bit button code is unmapped; in particular the body with
key = 0xFF decodes to button NONE and ring HIGH simultaneously. -/
theorem c10_button_ring_independent (sta1 sta2 key : Nat) :
    (∃ info, cmd_get_device_info [83, 84, sta1, sta2, key] = .ok info ∧
      info.ring = (ringOfCode ((key &&& 0x60) >>> 5)).getD .UNPOSITIONED ∧
      info.button = (buttonOfCode (key &&& 0x1F)).getD .NONE ∧
      (buttonOfCode (key &&& 0x1F) = none →
        info.button = .NONE ∧
        info.ring = (ringOfCode ((key &&& 0x60) >>> 5)).getD .UNPOSITIONED)) ∧
    cmd_get_device_info [83, 84, 0, 0, 0xFF] =
      .ok { status := .IDLE, remote := .REMOTE_OFF, button := .NONE,
            ring := .HIGH } := by
  refine ⟨⟨_, rfl, rfl, rfl, ?_⟩, rfl⟩
  intro h
  constructor
  · show buttonOf key = .NONE
    unfold buttonOf
    rw [h]
    rfl
  · rfl

/-- Witness for C10 at key = 0xFF with an IDLE status body. -/
theorem c10_button_ring_independent_witness :
    ∃ info, cmd_get_device_info [83, 84, 0, 0, 255] = .ok info ∧
      info.ring = (ringOfCode ((255 &&& 0x60) >>> 5)).getD .UNPOSITIONED ∧
      info.button = (buttonOfCode (255 &&& 0x1F)).getD .NONE ∧
      (buttonOfCode (255 &&& 0x1F) = none →
        info.button = .NONE ∧
        info.ring = (ringOfCode ((255 &&& 0x60) >>> 5)).getD .UNPOSITIONED) :=
  (c10_button_ring_independent 0 0 255).1

/-- Claim C2: decoding fails with "Invalid measurement data size" for every
payload whose total length differs from the fixed record length, and for every
payload of the correct length the decoded result has exactly 401 entries of
1 nm spectral data and exactly 81 entries of 5 nm spectral data. -/
theorem c2_decode_measurement_size (data : List Nat) :
    (data.length ≠ MEAS_DATA_SIZE →
      decodeMeasurement data = .error "Invalid measurement data size") ∧
    (data.length = MEAS_DATA_SIZE →
      ∃ r, decodeMeasurement data = .ok r ∧
        r.SpectralData_1nm.length = 401 ∧ r.SpectralData_5nm.length = 81) := by
  constructor
  · intro h
    simp [decodeMeasurement, h]
  · intro h
    refine ⟨{ SpectralData_1nm :=
                (List.range 401).map (fun i => readWord data (SPD1_OFF + 4 * i))
              SpectralData_5nm :=
                (List.range 81).map (fun i => readWord data (SPD5_OFF + 4 * i)) },
      ?_, ?_, ?_⟩
    · simp [decodeMeasurement, h]
    · simp
    · simp

/-- Witness for C2: the 4-byte payload of
`test_invalid_measurement_data_size` fails, and an all-zero payload of the
record length decodes with the two spectral lengths 401 and 81. -/
theorem c2_decode_measurement_size_witness :
    decodeMeasurement [0, 1, 2, 3] = .error "Invalid measurement data size" ∧
    (∃ r, decodeMeasurement (List.replicate MEAS_DATA_SIZE 0) = .ok r ∧
      r.SpectralData_1nm.length = 401 ∧ r.SpectralData_5nm.length = 81) :=
  ⟨(c2_decode_measurement_size [0, 1, 2, 3]).1 (by decide),
   (c2_decode_measurement_size (List.replicate MEAS_DATA_SIZE 0)).2
     (by simp)⟩

/-- Claim C3: for every context string, `run_cmd_or_error` fails with
"<context> (timed out)" when the write, the acknowledgement read or the
payload read times out; with "<context> ([Errno <code>] <message>)" when any
of those raises another transport error; and with the bare context when the
acknowledgement is anything other than the byte pair 0x06 0x30 (including a
short read), while a correct acknowledgement returns the payload verbatim. -/
theorem c3_run_cmd_classification (ctx : String) (dr : TransportResult (List Nat)) :
    (∀ ar, run_cmd_or_error ctx .timeout ar dr = .error (ctx ++ " (timed out)")) ∧
    (∀ code msg ar, run_cmd_or_error ctx (.err code msg) ar dr =
      .error (ctx ++ " ([Errno " ++ code ++ "] " ++ msg ++ ")")) ∧
    (run_cmd_or_error ctx (.ok ()) .timeout dr = .error (ctx ++ " (timed out)")) ∧
    (∀ code msg, run_cmd_or_error ctx (.ok ()) (.err code msg) dr =
      .error (ctx ++ " ([Errno " ++ code ++ "] " ++ msg ++ ")")) ∧
    (∀ ack, ack ≠ [0x06, 0x30] →
      run_cmd_or_error ctx (.ok ()) (.ok ack) dr = .error ctx) ∧
    (run_cmd_or_error ctx (.ok ()) (.ok [0x06, 0x30]) .timeout =
      .error (ctx ++ " (timed out)")) ∧
    (∀ code msg, run_cmd_or_error ctx (.ok ()) (.ok [0x06, 0x30]) (.err code msg) =
      .error (ctx ++ " ([Errno " ++ code ++ "] " ++ msg ++ ")")) ∧
    (∀ payload, run_cmd_or_error ctx (.ok ()) (.ok [0x06, 0x30]) (.ok payload) =
      .ok payload) := by
  refine ⟨fun ar => rfl, fun code msg ar => rfl, rfl, fun code msg => rfl,
    ?_, rfl, fun code msg => rfl, fun payload => rfl⟩
  intro ack h
  simp [run_cmd_or_error, h]

/-- Witness for C3: the bad-acknowledgement case of
`test_run_cmd_or_error_bad_ack` — the 5-byte response "ERROR" is rejected with
the bare context. -/
theorem c3_run_cmd_classification_witness :
    run_cmd_or_error "Test command" (.ok ()) (.ok [69, 82, 82, 79, 82])
      (.ok []) = .error "Test command" :=
  (c3_run_cmd_classification "Test command" (.ok [])).2.2.2.2.1
    [69, 82, 82, 79, 82] (by decide)

/-- Claim C4: for every value within [low, high], `LuxFloatToStr` renders with
1 fractional digit below 99.95, as an integer from 99.95 up to 999.5, rounded
to the nearest 10 up to 9995, to the nearest 100 up to 99950, and to the
nearest 1000 above; values below low give Under and above high give Over; and
the six concrete renderings observed by `test_lux_float_to_str` hold. -/
theorem c4_lux_magnitude_table (v lo hi : ℚ)
    (hlo : lo ≤ v) (hhi : v ≤ hi) (hlh : lo ≤ hi) :
    ((v < 9995/100 → LuxFloatToStr v lo hi = fixedStr v 1) ∧
     (9995/100 ≤ v → v < 9995/10 → LuxFloatToStr v lo hi = fixedStr v 0) ∧
     (9995/10 ≤ v → v < 9995 →
       LuxFloatToStr v lo hi = intStr (10 * roundHE (v / 10))) ∧
     (9995 ≤ v → v < 99950 →
       LuxFloatToStr v lo hi = intStr (100 * roundHE (v / 100))) ∧
     (99950 ≤ v → LuxFloatToStr v lo hi = intStr (1000 * roundHE (v / 1000)))) ∧
    ((∀ w : ℚ, w < lo → LuxFloatToStr w lo hi = "Under") ∧
     (∀ w : ℚ, hi < w → LuxFloatToStr w lo hi = "Over")) ∧
    (LuxFloatToStr (925/100) 0 1000 = "9.2" ∧
     LuxFloatToStr (54321/1000) 0 1000 = "54.3" ∧
     LuxFloatToStr (5006/10) 0 1000 = "501" ∧
     LuxFloatToStr (12345/10) 0 10000 = "1230" ∧
     LuxFloatToStr (123456/10) 0 100000 = "12300" ∧
     LuxFloatToStr (1234567/10) 0 1000000 = "123000") := by
  refine ⟨⟨?_, ?_, ?_, ?_, ?_⟩, ⟨?_, ?_⟩, ?_, ?_, ?_, ?_, ?_, ?_⟩
  · intro hb
    unfold LuxFloatToStr
    rw [if_neg (not_lt.2 hlo), if_neg (not_lt.2 hhi)]
    by_cases h9 : v < 995/100
    · rw [if_pos h9]
    · rw [if_neg h9, if_pos hb]
  · intro ha hb
    unfold LuxFloatToStr
    rw [if_neg (not_lt.2 hlo), if_neg (not_lt.2 hhi),
      if_neg (by intro h; linarith), if_neg (not_lt.2 ha), if_pos hb]
  · intro ha hb
    unfold LuxFloatToStr
    rw [if_neg (not_lt.2 hlo), if_neg (not_lt.2 hhi),
      if_neg (by intro h; linarith), if_neg (by intro h; linarith),
      if_neg (not_lt.2 ha), if_pos hb]
  · intro ha hb
    unfold LuxFloatToStr
    rw [if_neg (not_lt.2 hlo), if_neg (not_lt.2 hhi),
      if_neg (by intro h; linarith), if_neg (by intro h; linarith),
      if_neg (by intro h; linarith), if_neg (not_lt.2 ha), if_pos hb]
  · intro ha
    unfold LuxFloatToStr
    rw [if_neg (not_lt.2 hlo), if_neg (not_lt.2 hhi),
      if_neg (by intro h; linarith), if_neg (by intro h; linarith),
      if_neg (by intro h; linarith), if_neg (by intro h; linarith),
      if_neg (not_lt.2 ha)]
  · intro w hw
    unfold LuxFloatToStr
    rw [if_pos hw]
  · intro w hw
    unfold LuxFloatToStr
    rw [if_neg (not_lt.2 (le_of_lt (lt_of_le_of_lt hlh hw))), if_pos hw]
  · have h : roundHE ((925:ℚ)/100 * (10 : ℚ) ^ (1:ℕ)) = 92 := by
      unfold roundHE; norm_num
    unfold LuxFloatToStr fixedStr
    rw [if_neg (by norm_num), if_neg (by norm_num), if_pos (by norm_num), h]
    decide
  · have h : roundHE ((54321:ℚ)/1000 * (10 : ℚ) ^ (1:ℕ)) = 543 := by
      unfold roundHE; norm_num
    unfold LuxFloatToStr fixedStr
    rw [if_neg (by norm_num), if_neg (by norm_num), if_neg (by norm_num),
      if_pos (by norm_num), h]
    decide
  · have h : roundHE ((5006:ℚ)/10 * (10 : ℚ) ^ (0:ℕ)) = 501 := by
      unfold roundHE; norm_num
    unfold LuxFloatToStr fixedStr
    rw [if_neg (by norm_num), if_neg (by norm_num), if_neg (by norm_num),
      if_neg (by norm_num), if_pos (by norm_num), h]
    decide
  · have h : roundHE ((12345:ℚ)/10/10) = 123 := by
      unfold roundHE; norm_num
    unfold LuxFloatToStr
    rw [if_neg (by norm_num), if_neg (by norm_num), if_neg (by norm_num),
      if_neg (by norm_num), if_neg (by norm_num), if_pos (by norm_num), h]
    decide
  · have h : roundHE ((123456:ℚ)/10/100) = 123 := by
      unfold roundHE; norm_num
    unfold LuxFloatToStr
    rw [if_neg (by norm_num), if_neg (by norm_num), if_neg (by norm_num),
      if_neg (by norm_num), if_neg (by norm_num), if_neg (by norm_num),
      if_pos (by norm_num), h]
    decide
  · have h : roundHE ((1234567:ℚ)/10/1000) = 123 := by
      unfold roundHE; norm_num
    unfold LuxFloatToStr
    rw [if_neg (by norm_num), if_neg (by norm_num), if_neg (by norm_num),
      if_neg (by norm_num), if_neg (by norm_num), if_neg (by norm_num),
      if_neg (by norm_num), h]
    decide

/-- Witness for C4 at v = 9.25 in [0, 1000], projecting the first observed
rendering. -/
theorem c4_lux_magnitude_table_witness :
    LuxFloatToStr (925/100) 0 1000 = "9.2" :=
  (c4_lux_magnitude_table (925/100) 0 1000 (by norm_num) (by norm_num)
    (by norm_num)).2.2.1

/-- Claim C5: CIE1931.z is never read from the wire — it is a function of the
decoded x and y only: a sentinel x propagates to z, else a sentinel y
propagates to z, else z is 1 − x − y rendered with the same 4-decimal rule as
x and y; concretely x = "0.3127", y = "0.3290" gives z = "0.3583", x Under
gives z "Under", y Over gives z "Over". -/
theorem c5_cie1931_z_derivation (x y : Measured) (qx qy : ℚ) :
    cie1931_z .under y = .under ∧
    cie1931_z .over y = .over ∧
    cie1931_z (.value qx) .under = .under ∧
    cie1931_z (.value qx) .over = .over ∧
    cie1931_z (.value qx) (.value qy) = .value (1 - qx - qy) ∧
    (mkCIE1931 x y).z = (cie1931_z x y).render 4 ∧
    mkCIE1931 (.value (3127/10000)) (.value (3290/10000)) =
      { x := "0.3127", y := "0.3290", z := "0.3583" } ∧
    (mkCIE1931 .under y).z = "Under" ∧
    (mkCIE1931 (.value qx) .over).z = "Over" := by
  refine ⟨rfl, rfl, rfl, rfl, rfl, rfl, ?_, rfl, rfl⟩
  have hx : roundHE ((3127:ℚ)/10000 * (10 : ℚ) ^ (4:ℕ)) = 3127 := by
    unfold roundHE; norm_num
  have hy : roundHE ((3290:ℚ)/10000 * (10 : ℚ) ^ (4:ℕ)) = 3290 := by
    unfold roundHE; norm_num
  have hz : roundHE ((1 - (3127:ℚ)/10000 - 3290/10000) * (10 : ℚ) ^ (4:ℕ)) = 3583 := by
    unfold roundHE; norm_num
  simp only [mkCIE1931, cie1931_z, Measured.render, fixedStr, CIE1931Value.mk.injEq]
  rw [hx, hy, hz]
  refine ⟨?_, ?_, ?_⟩ <;> decide

/-- One-step unfolding of `wait_until_ready` when at least one step of budget
remains. -/
theorem wait_until_ready_succ (fetch : Nat → Except String DeviceInfo)
    (fuel i : Nat) :
    wait_until_ready fetch (fuel + 1) i =
      match fetch i with
      | .error e =>
          { result := .error ("Error getting device info: " ++ e), cleanups := 0,
            fetches := i + 1 }
      | .ok info =>
        if info.button = .MEASURING then
          { result := .error "Measuring button is pressed", cleanups := 1,
            fetches := i + 1 }
        else if info.ring ≠ .LOW then
          { result := .error "Ring is not set to LOW position", cleanups := 1,
            fetches := i + 1 }
        else if info.status.isBusy then
          wait_until_ready fetch fuel (i + 1)
        else
          { result := .ok (), cleanups := 0, fetches := i + 1 } := rfl

/-- One-step unfolding of `wait_measurement_result` when at least one step of
budget remains. -/
theorem wait_measurement_result_succ
    (fetch : Nat → Except String SKF_STATUS_DEVICE) (fuel i : Nat) :
    wait_measurement_result fetch (fuel + 1) i =
      match fetch i with
      | .error _ => wait_measurement_result fetch fuel (i + 1)
      | .ok s =>
        if s = .BUSY_MEASURING then wait_measurement_result fetch fuel (i + 1)
        else { result := .ok (), cleanups := 0, fetches := i + 1 } := rfl

/-- Claim C6: `wait_until_ready` on an open connection fails "Measuring button
is pressed" when the fetched status has button MEASURING, fails "Ring is not
set to LOW position" when the ring is not LOW, retries (one step of fuel, one
sleep) while the status is any BUSY_* state, returns successfully otherwise
with no remote-off cleanup, and when the status stays BUSY_MEASURING past the
budget fails "Max connect time exceeded" with exactly one remote-off
cleanup. -/
theorem c6_wait_until_ready (fetch : Nat → Except String DeviceInfo)
    (info : DeviceInfo) (fuel i : Nat) :
    (fetch i = .ok info → info.button = .MEASURING →
      wait_until_ready fetch (fuel + 1) i =
        { result := .error "Measuring button is pressed", cleanups := 1,
          fetches := i + 1 }) ∧
    (fetch i = .ok info → info.button ≠ .MEASURING → info.ring ≠ .LOW →
      wait_until_ready fetch (fuel + 1) i =
        { result := .error "Ring is not set to LOW position", cleanups := 1,
          fetches := i + 1 }) ∧
    (fetch i = .ok info → info.button ≠ .MEASURING → info.ring = .LOW →
      info.status.isBusy = true →
      wait_until_ready fetch (fuel + 1) i = wait_until_ready fetch fuel (i + 1)) ∧
    (fetch i = .ok info → info.button ≠ .MEASURING → info.ring = .LOW →
      info.status.isBusy = false →
      wait_until_ready fetch (fuel + 1) i =
        { result := .ok (), cleanups := 0, fetches := i + 1 }) ∧
    ((∀ j, fetch j = .ok info) → info.button ≠ .MEASURING → info.ring = .LOW →
      info.status = .BUSY_MEASURING →
      ∀ n j, (wait_until_ready fetch n j).result = .error "Max connect time exceeded" ∧
        (wait_until_ready fetch n j).cleanups = 1) := by
  refine ⟨?_, ?_, ?_, ?_, ?_⟩
  · intro hfi hb
    rw [wait_until_ready_succ, hfi]
    simp [hb]
  · intro hfi hb hr
    rw [wait_until_ready_succ, hfi]
    simp [hb, hr]
  · intro hfi hb hr hs
    rw [wait_until_ready_succ, hfi]
    simp [hb, hr, hs]
  · intro hfi hb hr hs
    rw [wait_until_ready_succ, hfi]
    simp [hb, hr, hs]
  · intro hf hb hr hs n
    induction n with
    | zero => exact fun j => ⟨rfl, rfl⟩
    | succ m ih =>
      intro j
      have step : wait_until_ready fetch (m + 1) j = wait_until_ready fetch m (j + 1) := by
        rw [wait_until_ready_succ, hf j]
        simp [hb, hr, hs, SKF_STATUS_DEVICE.isBusy]
      rw [step]
      exact ih (j + 1)

/-- Witness for C6: a perpetually BUSY_MEASURING status with ring LOW and no
button exhausts a 3-step budget with exactly one cleanup. -/
theorem c6_wait_until_ready_witness :
    (wait_until_ready (fun _ => .ok
      { status := .BUSY_MEASURING, remote := .REMOTE_OFF, button := .NONE,
        ring := .LOW }) 3 0).result = .error "Max connect time exceeded" ∧
    (wait_until_ready (fun _ => .ok
      { status := .BUSY_MEASURING, remote := .REMOTE_OFF, button := .NONE,
        ring := .LOW }) 3 0).cleanups = 1 :=
  (c6_wait_until_ready _
    { status := .BUSY_MEASURING, remote := .REMOTE_OFF, button := .NONE,
      ring := .LOW } 0 0).2.2.2.2
    (fun _ => rfl) (by decide) rfl rfl 3 0

/-- Claim C7: `wait_measurement_result` on an open connection swallows a
CommandError raised by the status fetch and retries after a sleep, and
terminates successfully on the first poll whose status is not BUSY_MEASURING;
in particular one failing fetch followed by a non-busy status succeeds with
exactly two fetches, and a first non-busy poll ends the loop with a single
fetch. -/
theorem c7_wait_measurement_result (fetch : Nat → Except String SKF_STATUS_DEVICE)
    (s : SKF_STATUS_DEVICE) (fuel i : Nat) :
    ((∃ e, fetch i = .error e) →
      wait_measurement_result fetch (fuel + 1) i =
        wait_measurement_result fetch fuel (i + 1)) ∧
    (fetch i = .ok s → s ≠ .BUSY_MEASURING →
      wait_measurement_result fetch (fuel + 1) i =
        { result := .ok (), cleanups := 0, fetches := i + 1 }) ∧
    ((∃ e, fetch 0 = .error e) → fetch 1 = .ok s → s ≠ .BUSY_MEASURING →
      ∀ n, wait_measurement_result fetch (n + 2) 0 =
        { result := .ok (), cleanups := 0, fetches := 2 }) := by
  refine ⟨?_, ?_, ?_⟩
  · rintro ⟨e, he⟩
    rw [wait_measurement_result_succ, he]
  · intro h hs
    rw [wait_measurement_result_succ, h]
    simp [hs]
  · rintro ⟨e, he⟩ h1 hs n
    have step1 : wait_measurement_result fetch (n + 1 + 1) 0 =
        wait_measurement_result fetch (n + 1) 1 := by
      rw [wait_measurement_result_succ, he]
    rw [step1, wait_measurement_result_succ, h1]
    simp [hs]

/-- Witness for C7: a fetch that errors once and then reports IDLE succeeds
with exactly two fetches on a 2-step budget. -/
theorem c7_wait_measurement_result_witness :
    wait_measurement_result
      (fun j => if j = 0 then .error "Temporary error" else .ok .IDLE) 2 0 =
      { result := .ok (), cleanups := 0, fetches := 2 } :=
  (c7_wait_measurement_result
    (fun j => if j = 0 then .error "Temporary error" else .ok .IDLE)
    .IDLE 0 0).2.2 ⟨"Temporary error", rfl⟩ rfl (by decide) 0

/-- Claim C8: `measure` with real data on a connected session issues
remote-on, configuration push, start-measuring, poll-to-completion and result
fetch in that order, each exactly once, followed by remote-off; and when the
trailing remote-off fails the failure is swallowed and the already-obtained
result is still returned. -/
theorem c8_measure_sequence (beh : DevOp → Except String Unit)
    (fetched : Except String MeasurementResult) (r : MeasurementResult) :
    (beh .remoteOn = .ok () → beh .config = .ok () →
     beh .startMeasuring = .ok () → beh .poll = .ok () → fetched = .ok r →
      measure beh fetched =
        { result := .ok r,
          trace := [.remoteOn, .config, .startMeasuring, .poll, .fetchResult,
            .remoteOff] }) ∧
    (∀ e, beh .remoteOn = .ok () → beh .config = .ok () →
     beh .startMeasuring = .ok () → beh .poll = .ok () → fetched = .ok r →
     beh .remoteOff = .error e →
      (measure beh fetched).result = .ok r ∧
      (measure beh fetched).trace =
        [.remoteOn, .config, .startMeasuring, .poll, .fetchResult, .remoteOff]) := by
  constructor
  · intro h1 h2 h3 h4 h5
    unfold measure
    rw [h1, h2, h3, h4, h5]
    cases hoff : beh DevOp.remoteOff <;> rfl
  · intro e h1 h2 h3 h4 h5 hoff
    unfold measure
    rw [h1, h2, h3, h4, h5, hoff]
    exact ⟨rfl, rfl⟩

/-- Witness for C8: every command succeeds except the trailing remote-off,
which fails; the measurement result is still returned and the full command
sequence was issued. -/
theorem c8_measure_sequence_witness :
    (measure (fun op => match op with
        | .remoteOff => .error "Remote mode off error"
        | _ => .ok ())
      (.ok { SpectralData_1nm := [], SpectralData_5nm := [] })).result =
      .ok { SpectralData_1nm := [], SpectralData_5nm := [] } ∧
    (measure (fun op => match op with
        | .remoteOff => .error "Remote mode off error"
        | _ => .ok ())
      (.ok { SpectralData_1nm := [], SpectralData_5nm := [] })).trace =
      [.remoteOn, .config, .startMeasuring, .poll, .fetchResult, .remoteOff] :=
  (c8_measure_sequence _ _ _).2 "Remote mode off error" rfl rfl rfl rfl rfl rfl

end Skreader
